import Mathlib

/-!
Verification of the subsystem lifecycle registry
(`src/engine/src/core/systems_manager.c`).

The C file is shallowly embedded below.  Machine integers are modelled as
`Nat`/`Int`; the `b8` success flag as `Bool`; nullable function pointers as
`Option`; the in-place mutation of `systems_manager_state` as explicit state
passing.  A function-pointer value that is only stored and invoked opaquely
(a subsystem's shutdown routine) is modelled as an abstract identifier of
type `Nat`, and the side-effecting invocations of the shutdown and update
passes are modelled as the trace (list) of invocations they perform.

The C header `systems_manager.h` and the subsystem headers are not part of
the source under review; the `k_system_type` enumeration, the job work-type
bit flags, and the linear-allocator behaviour are modelled from the spec and
noted as such at their definitions.
-/

/-- Modelled from the spec: the fixed `k_system_type` enumeration, one entry
per known subsystem kind used by `systems_manager.c` (the header holding the
concrete numeric values is not in the reviewed source; declaration order is
used as the type-index order). -/
inductive KSystemType where
  | memory
  | console
  | kvar
  | event
  | logging
  | input
  | platform
  | resource
  | shader
  | renderer
  | job
  | texture
  | font
  | camera
  | render_view
  | material
  | geometry
  deriving DecidableEq, Repr

/-- The C type `PFN_system_initialize`: `b8 (*)(u64* memory_requirement, void* memory,
void* config)`.  Modelled as a pure function taking the value currently held
by `*memory_requirement`, the `memory` pointer (`none` = null, `some p` = an
allocated block at offset `p`), and the opaque `config` pointer; it returns
the `b8` result together with the value it leaves in `*memory_requirement`.
(The C name ends in a word this development cannot use as an identifier, so
the Lean name is `InitFn`.) -/
abbrev InitFn : Type := Nat → Option Nat → Nat → Bool × Nat

/-- The C type `PFN_system_shutdown`: `void (*)(void* state)`.  The routine is opaque to
the registry, which only stores the pointer and later invokes it; it is
modelled as an abstract function-pointer identifier. -/
abbrev ShutdownFn : Type := Nat

/-- The C type `PFN_system_update`: `b8 (*)(void* state, u32 delta_time)`. -/
abbrev UpdateFn : Type := Nat → Nat → Bool

/-- The `k_system` slot record: the dispatch triple plus the owned state
block (a pointer, modelled as an arena offset) and its size.  The C field
`initialize` is named `init` here. -/
structure KSystem where
  init : Option InitFn
  shutdown : ShutdownFn
  update : Option UpdateFn
  state : Nat
  state_size : Nat

/-- The C struct `systems_manager_state`: the type-indexed slot table together with the
systems linear allocator, the latter represented by its bump cursor. -/
structure SMState where
  systems : KSystemType → KSystem
  cursor : Nat

/-- Modelled from the spec (the allocator source is not under review):
`linear_allocator_allocate` monotonically advances the bump cursor and
returns the block at the previous cursor.  Capacity exhaustion (process
fatal per the spec) is not modelled. -/
def linear_allocator_allocate (cursor size : Nat) : Nat × Nat :=
  (cursor, cursor + size)

/-- The C function `systems_manager_register`.  The C function declares an uninitialized
local `k_system sys;`; the indeterminate initial contents of its `state` and
`state_size` fields are made explicit as the `junk_state` and `junk_size`
arguments (the first `initialize` call receives `junk_size` as the incoming
value of `*memory_requirement`).  Returns the `b8` result and the resulting
manager state. -/
def systems_manager_register (st : SMState) (type : KSystemType)
    (init : Option InitFn) (shutdown : ShutdownFn) (update : Option UpdateFn)
    (config : Nat) (junk_state : Nat) (junk_size : Nat) : Bool × SMState :=
  match init with
  | some f =>
    let c1 := f junk_size none config
    if !c1.1 then
      (false, st)
    else
      let alloc := linear_allocator_allocate st.cursor c1.2
      let st1 : SMState := { systems := st.systems, cursor := alloc.2 }
      let c2 := f c1.2 (some alloc.1) config
      if !c2.1 then
        (false, st1)
      else
        (true, { systems := Function.update st1.systems type
                   { init := some f, shutdown := shutdown, update := update,
                     state := alloc.1, state_size := c2.2 },
                 cursor := st1.cursor })
  | none =>
    if type ≠ KSystemType.memory then
      (false, st)
    else
      (true, { systems := Function.update st.systems type
                 { init := none, shutdown := shutdown, update := update,
                   state := junk_state, state_size := junk_size },
               cursor := st.cursor })

/-- The slot table iteration order of `systems_manager_update`'s
`for (u32 i = 0; i < K_SYSTEM_TYPE_MAX_COUNT; ++i)` loop, restricted to the
known types (modelled from the spec's fixed enumeration, in type-index
order). -/
def enum_order : List KSystemType :=
  [KSystemType.memory, KSystemType.console, KSystemType.kvar,
   KSystemType.event, KSystemType.logging, KSystemType.input,
   KSystemType.platform, KSystemType.resource, KSystemType.shader,
   KSystemType.renderer, KSystemType.job, KSystemType.texture,
   KSystemType.font, KSystemType.camera, KSystemType.render_view,
   KSystemType.material, KSystemType.geometry]

/-- One recorded invocation of the update pass: the slot's type, the state
pointer passed, and the `b8` the update callback returned (a `false` result
is only logged by `KERROR` in the C code, which is how a failure surfaces in
the trace). -/
abbrev UpdateEvent : Type := KSystemType × Nat × Bool

/-- The C function `systems_manager_update`: iterate every slot in type-index order, invoke
each non-null `update` with `delta_time` (recording the invocation in the
trace), log failures, and return `true`. -/
def systems_manager_update (st : SMState) (delta_time : Nat) :
    Bool × List UpdateEvent :=
  let trace := enum_order.foldl (fun acc t =>
    let s := st.systems t
    match s.update with
    | none => acc
    | some u => acc ++ [(t, s.state, u s.state delta_time)]) []
  (true, trace)

/-- One recorded invocation of the shutdown pass: the slot index used, the
stored shutdown function pointer invoked, and the stored state pointer it
is passed. -/
abbrev ShutdownEvent : Type := KSystemType × Nat × Nat

/-- The C function `shutdown_known_systems`: the literal, hard-coded sequence of
`state->systems[T].shutdown(state->systems[T].state)` invocations, in the
order written in the C function. -/
def shutdown_known_systems (st : SMState) : List ShutdownEvent :=
  [(KSystemType.camera, (st.systems KSystemType.camera).shutdown,
    (st.systems KSystemType.camera).state),
   (KSystemType.font, (st.systems KSystemType.font).shutdown,
    (st.systems KSystemType.font).state),
   (KSystemType.render_view, (st.systems KSystemType.render_view).shutdown,
    (st.systems KSystemType.render_view).state),
   (KSystemType.geometry, (st.systems KSystemType.geometry).shutdown,
    (st.systems KSystemType.geometry).state),
   (KSystemType.material, (st.systems KSystemType.material).shutdown,
    (st.systems KSystemType.material).state),
   (KSystemType.texture, (st.systems KSystemType.texture).shutdown,
    (st.systems KSystemType.texture).state),
   (KSystemType.job, (st.systems KSystemType.job).shutdown,
    (st.systems KSystemType.job).state),
   (KSystemType.shader, (st.systems KSystemType.shader).shutdown,
    (st.systems KSystemType.shader).state),
   (KSystemType.renderer, (st.systems KSystemType.renderer).shutdown,
    (st.systems KSystemType.renderer).state),
   (KSystemType.resource, (st.systems KSystemType.resource).shutdown,
    (st.systems KSystemType.resource).state),
   (KSystemType.platform, (st.systems KSystemType.platform).shutdown,
    (st.systems KSystemType.platform).state),
   (KSystemType.input, (st.systems KSystemType.input).shutdown,
    (st.systems KSystemType.input).state),
   (KSystemType.logging, (st.systems KSystemType.logging).shutdown,
    (st.systems KSystemType.logging).state),
   (KSystemType.event, (st.systems KSystemType.event).shutdown,
    (st.systems KSystemType.event).state),
   (KSystemType.kvar, (st.systems KSystemType.kvar).shutdown,
    (st.systems KSystemType.kvar).state),
   (KSystemType.console, (st.systems KSystemType.console).shutdown,
    (st.systems KSystemType.console).state),
   (KSystemType.memory, (st.systems KSystemType.memory).shutdown,
    (st.systems KSystemType.memory).state)]

/-- The shutdown order as a list of slot indices, read off the C function
line by line. -/
def shutdown_order : List KSystemType :=
  [KSystemType.camera, KSystemType.font, KSystemType.render_view,
   KSystemType.geometry, KSystemType.material, KSystemType.texture,
   KSystemType.job, KSystemType.shader, KSystemType.renderer,
   KSystemType.resource, KSystemType.platform, KSystemType.input,
   KSystemType.logging, KSystemType.event, KSystemType.kvar,
   KSystemType.console, KSystemType.memory]

/-- An all-zero slot, per the spec: slots are born empty (zeroed). -/
def k_system_zero : KSystem :=
  { init := none, shutdown := 0, update := none, state := 0, state_size := 0 }

/-- The manager state at process start: every slot zeroed, allocator cursor
at the beginning of the arena. -/
def sm_zero : SMState :=
  { systems := fun _ => k_system_zero, cursor := 0 }

/-- Modelled from the spec: the job work-type masks form a bitset over the
three categories (general, GPU-resource, resource-load); the exact bit
values live in a header that is not in the reviewed source, so three
distinct bits are used. -/
def JOB_TYPE_GENERAL : Nat := 1

/-- Modelled from the spec: the GPU-resource work-type bit. -/
def JOB_TYPE_GPU_RESOURCE : Nat := 2

/-- Modelled from the spec: the resource-load work-type bit. -/
def JOB_TYPE_RESOURCE_LOAD : Nat := 4

/-- The constant `const i32 max_thread_count = 15;` from
`register_known_systems_pre_boot`. -/
def max_thread_count : Int := 15

/-- The worker-thread-count derivation of `register_known_systems_pre_boot`:
`thread_count = platform_get_processor_count() - 1`; `none` models the
`KFATAL` + `return false` path when `thread_count < 1`; otherwise the count
is capped at `max_thread_count`. -/
def derived_thread_count (processor_count : Int) : Option Int :=
  let thread_count := processor_count - 1
  if thread_count < 1 then
    none
  else
    some (if thread_count > max_thread_count then max_thread_count
          else thread_count)

/-- The `job_thread_types[15]` array as filled by
`register_known_systems_pre_boot`: all 15 entries start as
`JOB_TYPE_GENERAL`, then the branch chain runs.  Note the transcribed
conditions test `max_thread_count` — the constant 15 — exactly as the C
code does (`max_thread_count == 1`, `max_thread_count == 2`); the capped
`thread_count` is not consulted. -/
def job_thread_types (renderer_multithreaded : Bool) : List Nat :=
  let base := List.replicate 15 JOB_TYPE_GENERAL
  if max_thread_count = 1 ∨ renderer_multithreaded = false then
    base.set 0 (JOB_TYPE_GENERAL |||
      (JOB_TYPE_GPU_RESOURCE ||| JOB_TYPE_RESOURCE_LOAD))
  else if max_thread_count = 2 then
    (base.set 0 (JOB_TYPE_GENERAL ||| JOB_TYPE_GPU_RESOURCE)).set 1
      (JOB_TYPE_GENERAL ||| JOB_TYPE_RESOURCE_LOAD)
  else
    (base.set 0 JOB_TYPE_GPU_RESOURCE).set 1 JOB_TYPE_RESOURCE_LOAD

/-- The external subsystem entry points linked into
`register_known_systems_pre_boot` / `register_known_systems_post_boot`
(console_initialize, job_system_update, render_view_system_create, the
shutdown routines, …).  Their bodies are outside the reviewed source; each
is an abstract value.  The opaque `config` pointers the two passes build
from constants and from `application_config` are likewise abstract, one per
type, as is the indeterminate content of the local `k_system sys;` struct
in each `systems_manager_register` call. -/
structure ExternalSystems where
  init_of : KSystemType → InitFn
  shutdown_of : KSystemType → ShutdownFn
  job_update : UpdateFn
  render_view_create : Nat → Bool
  config_of : KSystemType → Nat
  junk_state : Nat
  junk_size : Nat

/-- The C struct `application_config`, restricted to what the two passes consume
observably here: the ordered render-view descriptors (abstract values fed
to `render_view_system_create`).  The window parameters and font
configuration flow only into opaque `config` pointers. -/
structure AppConfig where
  render_views : List Nat

/-- One step of a boot pass: a `systems_manager_register` call for a type, a
`render_view_system_create` call for one configured view, or the
worker-thread-count derivation (whose failure is the `KFATAL` processor
count path). -/
inductive BootStep where
  | reg : KSystemType → BootStep
  | derive_threads : BootStep
  | create_view : Nat → BootStep
  deriving DecidableEq, Repr

/-- The render-view creation loop inside `register_known_systems_post_boot`:
`render_view_system_create` for each configured view in order, `false`
(after `KFATAL`) at the first failure. -/
def create_views_loop (ext : ExternalSystems) : List Nat → Bool
  | [] => true
  | v :: rest =>
    if !ext.render_view_create v then false else create_views_loop ext rest

/-- The tail of `register_known_systems_pre_boot` from the job-system
registration on — the code after its last early-return check.  The job
registration is the only one passing an update callback
(`job_system_update`). -/
def pre_boot_from_job (ext : ExternalSystems) (st : SMState) :
    Bool × SMState :=
  let r := systems_manager_register st KSystemType.job
    (some (ext.init_of KSystemType.job)) (ext.shutdown_of KSystemType.job)
    (some ext.job_update) (ext.config_of KSystemType.job)
    ext.junk_state ext.junk_size
  if !r.1 then (false, r.2) else
  (true, r.2)

/-- The tail from the worker-thread-count derivation on: the `KFATAL` early
return when `platform_get_processor_count() - 1` is below 1, then the job
registration.  (The capped count and the mask table feed only the job
system's opaque config; they are modelled by `derived_thread_count` and
`job_thread_types`.) -/
def pre_boot_from_threads (ext : ExternalSystems) (processor_count : Int)
    (st : SMState) : Bool × SMState :=
  if (derived_thread_count processor_count).isNone then (false, st) else
  pre_boot_from_job ext st

/-- The tail from the renderer registration on. -/
def pre_boot_from_renderer (ext : ExternalSystems) (processor_count : Int)
    (st : SMState) : Bool × SMState :=
  let r := systems_manager_register st KSystemType.renderer
    (some (ext.init_of KSystemType.renderer))
    (ext.shutdown_of KSystemType.renderer) none
    (ext.config_of KSystemType.renderer) ext.junk_state ext.junk_size
  if !r.1 then (false, r.2) else
  pre_boot_from_threads ext processor_count r.2

/-- The tail from the shader registration on. -/
def pre_boot_from_shader (ext : ExternalSystems) (processor_count : Int)
    (st : SMState) : Bool × SMState :=
  let r := systems_manager_register st KSystemType.shader
    (some (ext.init_of KSystemType.shader))
    (ext.shutdown_of KSystemType.shader) none
    (ext.config_of KSystemType.shader) ext.junk_state ext.junk_size
  if !r.1 then (false, r.2) else
  pre_boot_from_renderer ext processor_count r.2

/-- The tail from the resource-system registration on. -/
def pre_boot_from_resource (ext : ExternalSystems) (processor_count : Int)
    (st : SMState) : Bool × SMState :=
  let r := systems_manager_register st KSystemType.resource
    (some (ext.init_of KSystemType.resource))
    (ext.shutdown_of KSystemType.resource) none
    (ext.config_of KSystemType.resource) ext.junk_state ext.junk_size
  if !r.1 then (false, r.2) else
  pre_boot_from_shader ext processor_count r.2

/-- The tail from the platform-system registration on. -/
def pre_boot_from_platform (ext : ExternalSystems) (processor_count : Int)
    (st : SMState) : Bool × SMState :=
  let r := systems_manager_register st KSystemType.platform
    (some (ext.init_of KSystemType.platform))
    (ext.shutdown_of KSystemType.platform) none
    (ext.config_of KSystemType.platform) ext.junk_state ext.junk_size
  if !r.1 then (false, r.2) else
  pre_boot_from_resource ext processor_count r.2

/-- The tail from the input-system registration on. -/
def pre_boot_from_input (ext : ExternalSystems) (processor_count : Int)
    (st : SMState) : Bool × SMState :=
  let r := systems_manager_register st KSystemType.input
    (some (ext.init_of KSystemType.input))
    (ext.shutdown_of KSystemType.input) none
    (ext.config_of KSystemType.input) ext.junk_state ext.junk_size
  if !r.1 then (false, r.2) else
  pre_boot_from_platform ext processor_count r.2

/-- The tail from the logging-system registration on. -/
def pre_boot_from_logging (ext : ExternalSystems) (processor_count : Int)
    (st : SMState) : Bool × SMState :=
  let r := systems_manager_register st KSystemType.logging
    (some (ext.init_of KSystemType.logging))
    (ext.shutdown_of KSystemType.logging) none
    (ext.config_of KSystemType.logging) ext.junk_state ext.junk_size
  if !r.1 then (false, r.2) else
  pre_boot_from_input ext processor_count r.2

/-- The tail from the event-system registration on. -/
def pre_boot_from_event (ext : ExternalSystems) (processor_count : Int)
    (st : SMState) : Bool × SMState :=
  let r := systems_manager_register st KSystemType.event
    (some (ext.init_of KSystemType.event))
    (ext.shutdown_of KSystemType.event) none
    (ext.config_of KSystemType.event) ext.junk_state ext.junk_size
  if !r.1 then (false, r.2) else
  pre_boot_from_logging ext processor_count r.2

/-- The tail from the KVar registration on. -/
def pre_boot_from_kvar (ext : ExternalSystems) (processor_count : Int)
    (st : SMState) : Bool × SMState :=
  let r := systems_manager_register st KSystemType.kvar
    (some (ext.init_of KSystemType.kvar))
    (ext.shutdown_of KSystemType.kvar) none
    (ext.config_of KSystemType.kvar) ext.junk_state ext.junk_size
  if !r.1 then (false, r.2) else
  pre_boot_from_event ext processor_count r.2

/-- The tail from the console registration on. -/
def pre_boot_from_console (ext : ExternalSystems) (processor_count : Int)
    (st : SMState) : Bool × SMState :=
  let r := systems_manager_register st KSystemType.console
    (some (ext.init_of KSystemType.console))
    (ext.shutdown_of KSystemType.console) none
    (ext.config_of KSystemType.console) ext.junk_state ext.junk_size
  if !r.1 then (false, r.2) else
  pre_boot_from_kvar ext processor_count r.2

/-- The C function `register_known_systems_pre_boot`, transcribed early-return site by
early-return site (each `pre_boot_from_…` function is the rest of the C
function after one more `if (!systems_manager_register(...)) return false;`
check): memory (null initializer), console, kvar, event, logging, input,
platform, resource, shader, renderer, the thread-count derivation, job. -/
def register_known_systems_pre_boot (ext : ExternalSystems)
    (processor_count : Int) (st : SMState) : Bool × SMState :=
  let r := systems_manager_register st KSystemType.memory none
    (ext.shutdown_of KSystemType.memory) none
    (ext.config_of KSystemType.memory) ext.junk_state ext.junk_size
  if !r.1 then (false, r.2) else
  pre_boot_from_console ext processor_count r.2

/-- The tail of `register_known_systems_post_boot` from the geometry-system
registration on — the code after its last early-return check. -/
def post_boot_from_geometry (ext : ExternalSystems) (st : SMState) :
    Bool × SMState :=
  let r := systems_manager_register st KSystemType.geometry
    (some (ext.init_of KSystemType.geometry))
    (ext.shutdown_of KSystemType.geometry) none
    (ext.config_of KSystemType.geometry) ext.junk_state ext.junk_size
  if !r.1 then (false, r.2) else
  (true, r.2)

/-- The tail from the material-system registration on. -/
def post_boot_from_material (ext : ExternalSystems) (st : SMState) :
    Bool × SMState :=
  let r := systems_manager_register st KSystemType.material
    (some (ext.init_of KSystemType.material))
    (ext.shutdown_of KSystemType.material) none
    (ext.config_of KSystemType.material) ext.junk_state ext.junk_size
  if !r.1 then (false, r.2) else
  post_boot_from_geometry ext r.2

/-- The tail from the render-view creation loop on: any single view failing
to create returns `false` (after `KFATAL`) before the remaining
registrations are attempted. -/
def post_boot_from_views (ext : ExternalSystems) (app_config : AppConfig)
    (st : SMState) : Bool × SMState :=
  if !create_views_loop ext app_config.render_views then (false, st) else
  post_boot_from_material ext st

/-- The tail from the render-view-system registration on. -/
def post_boot_from_render_view (ext : ExternalSystems)
    (app_config : AppConfig) (st : SMState) : Bool × SMState :=
  let r := systems_manager_register st KSystemType.render_view
    (some (ext.init_of KSystemType.render_view))
    (ext.shutdown_of KSystemType.render_view) none
    (ext.config_of KSystemType.render_view) ext.junk_state ext.junk_size
  if !r.1 then (false, r.2) else
  post_boot_from_views ext app_config r.2

/-- The tail from the camera-system registration on. -/
def post_boot_from_camera (ext : ExternalSystems) (app_config : AppConfig)
    (st : SMState) : Bool × SMState :=
  let r := systems_manager_register st KSystemType.camera
    (some (ext.init_of KSystemType.camera))
    (ext.shutdown_of KSystemType.camera) none
    (ext.config_of KSystemType.camera) ext.junk_state ext.junk_size
  if !r.1 then (false, r.2) else
  post_boot_from_render_view ext app_config r.2

/-- The tail from the font-system registration on. -/
def post_boot_from_font (ext : ExternalSystems) (app_config : AppConfig)
    (st : SMState) : Bool × SMState :=
  let r := systems_manager_register st KSystemType.font
    (some (ext.init_of KSystemType.font))
    (ext.shutdown_of KSystemType.font) none
    (ext.config_of KSystemType.font) ext.junk_state ext.junk_size
  if !r.1 then (false, r.2) else
  post_boot_from_camera ext app_config r.2

/-- The C function `register_known_systems_post_boot`, transcribed early-return site by
early-return site: texture, font, camera, render-view, the per-view
creation loop, material, geometry. -/
def register_known_systems_post_boot (ext : ExternalSystems)
    (app_config : AppConfig) (st : SMState) : Bool × SMState :=
  let r := systems_manager_register st KSystemType.texture
    (some (ext.init_of KSystemType.texture))
    (ext.shutdown_of KSystemType.texture) none
    (ext.config_of KSystemType.texture) ext.junk_state ext.junk_size
  if !r.1 then (false, r.2) else
  post_boot_from_font ext app_config r.2

/-- The effect of one boot step on the manager state, wiring each
registration exactly as the corresponding call site does (memory with a
null initializer, job with an update callback, every other type with
neither special case); `derive_threads` and `create_view` do not touch the
manager state. -/
def boot_step (ext : ExternalSystems) (processor_count : Int)
    (st : SMState) : BootStep → Bool × SMState
  | BootStep.reg t =>
    systems_manager_register st t
      (if t = KSystemType.memory then none else some (ext.init_of t))
      (ext.shutdown_of t)
      (if t = KSystemType.job then some ext.job_update else none)
      (ext.config_of t) ext.junk_state ext.junk_size
  | BootStep.derive_threads =>
    ((derived_thread_count processor_count).isSome, st)
  | BootStep.create_view v => (ext.render_view_create v, st)

/-- Follows the spec's words (single-source-of-truth ordering): run an
ordered list of boot steps from a manager state, aborting at the first
failing step; returns the overall result, the final state, and the trace of
steps actually attempted, in order. -/
def spec_run_chain (step : SMState → BootStep → Bool × SMState) :
    SMState → List BootStep → Bool × SMState × List BootStep
  | st, [] => (true, st, [])
  | st, s :: rest =>
    let r := step st s
    if r.1 then
      let rr := spec_run_chain step r.2 rest
      (rr.1, rr.2.1, s :: rr.2.2)
    else
      (false, r.2, [s])

/-- The declared pre-boot order (section 4.3 of the spec): the ten first
registrations, the thread-count derivation, then the job registration. -/
def pre_boot_order : List BootStep :=
  [BootStep.reg KSystemType.memory, BootStep.reg KSystemType.console,
   BootStep.reg KSystemType.kvar, BootStep.reg KSystemType.event,
   BootStep.reg KSystemType.logging, BootStep.reg KSystemType.input,
   BootStep.reg KSystemType.platform, BootStep.reg KSystemType.resource,
   BootStep.reg KSystemType.shader, BootStep.reg KSystemType.renderer,
   BootStep.derive_threads, BootStep.reg KSystemType.job]

/-- The declared post-boot order: texture, font, camera, render-view, one
creation step per configured view, material, geometry. -/
def post_boot_order (views : List Nat) : List BootStep :=
  [BootStep.reg KSystemType.texture, BootStep.reg KSystemType.font,
   BootStep.reg KSystemType.camera, BootStep.reg KSystemType.render_view] ++
  views.map BootStep.create_view ++
  [BootStep.reg KSystemType.material, BootStep.reg KSystemType.geometry]

/-- The per-thread work-type table the spec's section 4.3 prescribes, as a
function of the capped thread count and the renderer multithreading flag
(this definition follows the spec's words, for comparison with the
source-derived `job_thread_types`). -/
def spec_thread_type_table (capped_thread_count : Int)
    (renderer_multithreaded : Bool) : List Nat :=
  let base := List.replicate 15 JOB_TYPE_GENERAL
  if capped_thread_count = 1 ∨ renderer_multithreaded = false then
    base.set 0 (JOB_TYPE_GENERAL |||
      (JOB_TYPE_GPU_RESOURCE ||| JOB_TYPE_RESOURCE_LOAD))
  else if capped_thread_count = 2 then
    (base.set 0 (JOB_TYPE_GENERAL ||| JOB_TYPE_GPU_RESOURCE)).set 1
      (JOB_TYPE_GENERAL ||| JOB_TYPE_RESOURCE_LOAD)
  else
    (base.set 0 JOB_TYPE_GPU_RESOURCE).set 1 JOB_TYPE_RESOURCE_LOAD

/-- C8: `systems_manager_register` with a null initialize function succeeds
only for the memory (bootstrap) type; for every other type it returns false
and the manager state — in particular every slot — is left unchanged. -/
theorem C8_null_init_only_memory (st : SMState) (t : KSystemType)
    (sd : ShutdownFn) (upd : Option UpdateFn) (config js jz : Nat) :
    ((systems_manager_register st t none sd upd config js jz).1 = true ↔
      t = KSystemType.memory) ∧
    (t ≠ KSystemType.memory →
      systems_manager_register st t none sd upd config js jz = (false, st)) := by
  constructor
  · unfold systems_manager_register
    by_cases h : t = KSystemType.memory <;> simp [h]
  · intro h
    unfold systems_manager_register
    simp [h]

/-- C8 witness: registering the console type with a null initializer is
rejected and changes nothing. -/
theorem C8_null_init_only_memory_witness :
    ((systems_manager_register sm_zero KSystemType.console none 0 none 0 0 0).1
        = true ↔ KSystemType.console = KSystemType.memory) ∧
    systems_manager_register sm_zero KSystemType.console none 0 none 0 0 0 =
      (false, sm_zero) :=
  ⟨(C8_null_init_only_memory sm_zero KSystemType.console 0 none 0 0 0).1,
   (C8_null_init_only_memory sm_zero KSystemType.console 0 none 0 0 0).2
     (by decide)⟩

/-- C9: `systems_manager_update` returns true for every manager state and
every delta time; its boolean result carries no information about per-slot
update failures. -/
theorem C9_update_always_returns_true (st : SMState) (delta_time : Nat) :
    (systems_manager_update st delta_time).1 = true := rfl

/-- C10: a successful null-initializer registration of the memory type
stores the dispatch triple but leaves the slot's `state` and `state_size`
holding the indeterminate contents of the uninitialized local struct
(whatever `junk_state`/`junk_size` happen to be), and the shutdown pass
then passes that indeterminate state value to the memory system's shutdown
function (its last invocation). -/
theorem C10_memory_slot_keeps_indeterminate_state (st : SMState)
    (sd : ShutdownFn) (upd : Option UpdateFn) (config js jz : Nat) :
    (systems_manager_register st KSystemType.memory none sd upd config js jz).1
      = true ∧
    (systems_manager_register st KSystemType.memory none sd upd config
        js jz).2.systems KSystemType.memory =
      { init := none, shutdown := sd, update := upd,
        state := js, state_size := jz } ∧
    (shutdown_known_systems
        (systems_manager_register st KSystemType.memory none sd upd config
          js jz).2).getLast? = some (KSystemType.memory, sd, js) := by
  refine ⟨rfl, ?_, ?_⟩
  · unfold systems_manager_register
    simp
  · unfold systems_manager_register shutdown_known_systems
    simp

/-- C1: the code's per-thread work-type table diverges from the table the
spec prescribes.  With processor count 2 the capped thread count is 1, yet
with a multithreading-capable renderer the code assigns thread 0 the
GPU-resource mask only (and thread 1 resource-load only), because its
branch conditions test the constant `max_thread_count` (15) instead of the
capped thread count; the spec's table requires thread 0 =
general|GPU-resource|resource-load in that case. -/
theorem C1_mask_table_diverges_from_spec :
    derived_thread_count 2 = some 1 ∧
    job_thread_types true =
      JOB_TYPE_GPU_RESOURCE :: JOB_TYPE_RESOURCE_LOAD ::
        List.replicate 13 JOB_TYPE_GENERAL ∧
    spec_thread_type_table 1 true =
      (JOB_TYPE_GENERAL |||
        (JOB_TYPE_GPU_RESOURCE ||| JOB_TYPE_RESOURCE_LOAD)) ::
        List.replicate 14 JOB_TYPE_GENERAL ∧
    job_thread_types true ≠ spec_thread_type_table 1 true := by
  refine ⟨by decide, by decide, by decide, by decide⟩

/-- C3 counterexample: the shutdown pass invokes seventeen slots, not
sixteen as the claim states. -/
theorem C3_counterexample_seventeen_slots :
    (shutdown_known_systems sm_zero).length = 17 ∧
    ¬(shutdown_known_systems sm_zero).length = 16 := by
  exact ⟨rfl, by decide⟩

/-- C3 (amended): for every manager state, the shutdown pass invokes each
slot's stored shutdown function on that slot's stored state in exactly the
fixed order camera, font, render-view, geometry, material, texture, job,
shader, renderer, resource, platform, input, logging, event, kvar, console,
memory — all seventeen slots, none twice — and the sequence depends only on
the slot table, not on the order in which slots were registered. -/
theorem C3_shutdown_fixed_order (st : SMState) :
    shutdown_known_systems st =
      shutdown_order.map (fun t =>
        (t, (st.systems t).shutdown, (st.systems t).state)) ∧
    shutdown_order.Nodup ∧
    shutdown_order.length = 17 ∧
    ∀ t : KSystemType, t ∈ shutdown_order := by
  refine ⟨rfl, by decide, by decide, fun t => by cases t <;> decide⟩

/-- A sample subsystem initializer: reports 4 bytes and succeeds on both
calls. -/
def sample_init : InitFn := fun _ _ _ => (true, 4)

/-- C2 counterexample: with the console slot already populated by a
successful first registration, a second `systems_manager_register` call for
the same type with the same (succeeding) arguments returns true — it is not
rejected — and overwrites the slot (its state pointer moves from arena
offset 0 to offset 4). -/
theorem C2_counterexample_second_registration_accepted :
    (systems_manager_register sm_zero KSystemType.console (some sample_init)
        0 none 0 0 0).1 = true ∧
    ((systems_manager_register sm_zero KSystemType.console (some sample_init)
        0 none 0 0 0).2.systems KSystemType.console).state = 0 ∧
    (systems_manager_register
        (systems_manager_register sm_zero KSystemType.console
          (some sample_init) 0 none 0 0 0).2
        KSystemType.console (some sample_init) 0 none 0 0 0).1 = true ∧
    ((systems_manager_register
        (systems_manager_register sm_zero KSystemType.console
          (some sample_init) 0 none 0 0 0).2
        KSystemType.console (some sample_init) 0 none 0 0 0).2.systems
          KSystemType.console).state = 4 := by
  exact ⟨rfl, rfl, rfl, rfl⟩

/-- C2 (amended): `systems_manager_register` performs no double-registration
check — whenever the two initialize calls succeed, a call for type `t`
returns true and (over)writes slot `t`, populated or not, while every other
slot is left unchanged. -/
theorem C2_reregistration_overwrites_slot (st : SMState) (t : KSystemType)
    (f : InitFn) (sd : ShutdownFn) (upd : Option UpdateFn) (config js jz : Nat)
    (h1 : (f jz none config).1 = true)
    (h2 : (f (f jz none config).2 (some st.cursor) config).1 = true) :
    (systems_manager_register st t (some f) sd upd config js jz).1 = true ∧
    (systems_manager_register st t (some f) sd upd config js jz).2.systems t =
      { init := some f, shutdown := sd, update := upd, state := st.cursor,
        state_size := (f (f jz none config).2 (some st.cursor) config).2 } ∧
    ∀ t2, t2 ≠ t →
      (systems_manager_register st t (some f) sd upd config js jz).2.systems t2
        = st.systems t2 := by
  unfold systems_manager_register linear_allocator_allocate
  simp only [h1, Bool.not_true, Bool.false_eq_true, if_false, h2]
  refine ⟨by trivial, by simp, ?_⟩
  intro t2 ht2
  simp [Function.update, ht2]

/-- C2 witness: the amended behaviour at a concrete populated state. -/
theorem C2_reregistration_overwrites_slot_witness :
    (systems_manager_register
        (systems_manager_register sm_zero KSystemType.console
          (some sample_init) 0 none 0 0 0).2
        KSystemType.console (some sample_init) 0 none 0 0 0).1 = true ∧
    (systems_manager_register
        (systems_manager_register sm_zero KSystemType.console
          (some sample_init) 0 none 0 0 0).2
        KSystemType.console (some sample_init) 0 none 0 0 0).2.systems
          KSystemType.console =
      { init := some sample_init, shutdown := 0, update := none, state := 4,
        state_size := 4 } ∧
    ∀ t2, t2 ≠ KSystemType.console →
      (systems_manager_register
          (systems_manager_register sm_zero KSystemType.console
            (some sample_init) 0 none 0 0 0).2
          KSystemType.console (some sample_init) 0 none 0 0 0).2.systems t2 =
        (systems_manager_register sm_zero KSystemType.console
          (some sample_init) 0 none 0 0 0).2.systems t2 :=
  C2_reregistration_overwrites_slot
    (systems_manager_register sm_zero KSystemType.console (some sample_init)
      0 none 0 0 0).2
    KSystemType.console sample_init 0 none 0 0 0 rfl rfl

/-- An initializer that reports 8 bytes on the sizing call (null memory
pointer) but overwrites the size out-parameter with 99 on the second,
real-initialization call. -/
def resizing_init : InitFn := fun _ mem _ =>
  match mem with
  | none => (true, 8)
  | some _ => (true, 99)

/-- C4 counterexample: registration succeeds, the arena block is allocated
with the 8 bytes reported by the first call (cursor advances 0 → 8), yet
the slot's stored `state_size` is 99 — the value the second initialize call
left in the size out-parameter — so `state_size` is not "set by the first
call and immutable thereafter". -/
theorem C4_counterexample_second_call_resizes :
    (systems_manager_register sm_zero KSystemType.console
        (some resizing_init) 0 none 0 0 0).1 = true ∧
    (systems_manager_register sm_zero KSystemType.console
        (some resizing_init) 0 none 0 0 0).2.cursor = 8 ∧
    ((systems_manager_register sm_zero KSystemType.console
        (some resizing_init) 0 none 0 0 0).2.systems
          KSystemType.console).state_size = 99 ∧
    (99 : Nat) ≠ 8 := by
  exact ⟨rfl, rfl, rfl, by decide⟩

/-- C4 (amended): for every registration whose two initialize calls succeed,
the block carved from the arena has exactly the byte size reported by the
first (null-buffer) call and starts at the old cursor, that block is what
the second call receives, and the slot's stored `state_size` is the value
the second call leaves in the size out-parameter (the same out-parameter is
passed to both calls) — equal to the first-reported size precisely when the
second call does not alter it. -/
theorem C4_sizing_protocol (st : SMState) (t : KSystemType) (f : InitFn)
    (sd : ShutdownFn) (upd : Option UpdateFn) (config js jz : Nat)
    (h1 : (f jz none config).1 = true)
    (h2 : (f (f jz none config).2 (some st.cursor) config).1 = true) :
    (systems_manager_register st t (some f) sd upd config js jz).2.cursor =
      st.cursor + (f jz none config).2 ∧
    ((systems_manager_register st t (some f) sd upd config js jz).2.systems
        t).state = st.cursor ∧
    ((systems_manager_register st t (some f) sd upd config js jz).2.systems
        t).state_size = (f (f jz none config).2 (some st.cursor) config).2 ∧
    ((f (f jz none config).2 (some st.cursor) config).2 =
        (f jz none config).2 →
      ((systems_manager_register st t (some f) sd upd config js jz).2.systems
          t).state_size = (f jz none config).2) := by
  unfold systems_manager_register linear_allocator_allocate
  simp only [h1, Bool.not_true, Bool.false_eq_true, if_false, h2]
  refine ⟨by trivial, by simp, by simp, fun h3 => by simp [h3]⟩

/-- C4 witness: the sizing protocol at a concrete input (an initializer that
reports 4 bytes and leaves the size untouched on the second call). -/
theorem C4_sizing_protocol_witness :
    (systems_manager_register sm_zero KSystemType.event (some sample_init)
        0 none 0 0 0).2.cursor = 0 + 4 ∧
    ((systems_manager_register sm_zero KSystemType.event (some sample_init)
        0 none 0 0 0).2.systems KSystemType.event).state = 0 ∧
    ((systems_manager_register sm_zero KSystemType.event (some sample_init)
        0 none 0 0 0).2.systems KSystemType.event).state_size = 4 ∧
    ((4 : Nat) = 4 →
      ((systems_manager_register sm_zero KSystemType.event (some sample_init)
          0 none 0 0 0).2.systems KSystemType.event).state_size = 4) :=
  C4_sizing_protocol sm_zero KSystemType.event sample_init 0 none 0 0 0
    rfl rfl

/-- C6: the two failure paths of an initializer-carrying registration.  If
the first (null-buffer, sizing) call fails, `systems_manager_register`
returns false with the slot table and the allocator cursor unchanged.  If
the second call (with the allocated block) fails, it returns false with the
slot table unchanged while the cursor stays advanced by the first-reported
size — the allocated bytes remain consumed (abandoned) in the arena. -/
theorem C6_register_failure_paths (st : SMState) (t : KSystemType)
    (f : InitFn) (sd : ShutdownFn) (upd : Option UpdateFn)
    (config js jz : Nat) :
    ((f jz none config).1 = false →
      systems_manager_register st t (some f) sd upd config js jz =
        (false, st)) ∧
    ((f jz none config).1 = true →
      (f (f jz none config).2 (some st.cursor) config).1 = false →
      systems_manager_register st t (some f) sd upd config js jz =
        (false, { systems := st.systems,
                  cursor := st.cursor + (f jz none config).2 })) := by
  constructor
  · intro h1
    unfold systems_manager_register
    simp [h1]
  · intro h1 h2
    unfold systems_manager_register linear_allocator_allocate
    simp [h1, h2]

/-- An initializer that always fails. -/
def failing_init : InitFn := fun _ _ _ => (false, 0)

/-- An initializer that succeeds on the sizing call, reporting 8 bytes, and
fails on the second, real-initialization call. -/
def second_call_failing_init : InitFn := fun _ mem _ =>
  match mem with
  | none => (true, 8)
  | some _ => (false, 8)

/-- C6 witness: both failure paths at concrete inputs — a sizing failure
leaves the manager state untouched; a second-call failure leaves the slot
table untouched with 8 bytes abandoned in the arena. -/
theorem C6_register_failure_paths_witness :
    systems_manager_register sm_zero KSystemType.console (some failing_init)
      0 none 0 0 0 = (false, sm_zero) ∧
    systems_manager_register sm_zero KSystemType.console
      (some second_call_failing_init) 0 none 0 0 0 =
      (false, { systems := sm_zero.systems, cursor := 0 + 8 }) :=
  ⟨(C6_register_failure_paths sm_zero KSystemType.console failing_init
      0 none 0 0 0).1 rfl,
   (C6_register_failure_paths sm_zero KSystemType.console
      second_call_failing_init 0 none 0 0 0).2 rfl rfl⟩

/-- The update-pass event produced for one slot: `none` when the slot's
update callback is null, otherwise the recorded invocation with the
callback's result. -/
def update_event (st : SMState) (delta_time : Nat) (t : KSystemType) :
    Option UpdateEvent :=
  match (st.systems t).update with
  | none => none
  | some u => some (t, (st.systems t).state,
      u (st.systems t).state delta_time)

/-- The update pass's fold accumulates exactly the per-slot events, in
iteration order. -/
theorem foldl_update_trace (st : SMState) (delta_time : Nat)
    (l : List KSystemType) (acc : List UpdateEvent) :
    l.foldl (fun acc t =>
      let s := st.systems t
      match s.update with
      | none => acc
      | some u => acc ++ [(t, s.state, u s.state delta_time)]) acc =
      acc ++ l.filterMap (update_event st delta_time) := by
  induction l generalizing acc with
  | nil => simp
  | cons hd tl ih =>
    simp only [List.foldl_cons, List.filterMap_cons, update_event]
    cases h : (st.systems hd).update with
    | none => simp [h, ih]
    | some u => simp [h, ih]

/-- C5: the per-frame update pass visits every slot in type-index order and
invokes the update callback of exactly the slots whose callback is non-null,
passing the elapsed delta time; the trace also records each callback's
result (a false result is only logged), and every such slot's invocation is
present in the trace no matter what any other slot's callback returned —
a failure never suppresses the invocations after it. -/
theorem C5_update_pass_invokes_all (st : SMState) (delta_time : Nat) :
    (systems_manager_update st delta_time).2 =
      enum_order.filterMap (update_event st delta_time) ∧
    ∀ t u, (st.systems t).update = some u →
      (t, (st.systems t).state, u (st.systems t).state delta_time) ∈
        (systems_manager_update st delta_time).2 := by
  have htrace : (systems_manager_update st delta_time).2 =
      enum_order.filterMap (update_event st delta_time) := by
    unfold systems_manager_update
    exact foldl_update_trace st delta_time enum_order []
  refine ⟨htrace, ?_⟩
  intro t u hu
  rw [htrace]
  have ht : t ∈ enum_order := by cases t <;> decide
  exact List.mem_filterMap.mpr ⟨t, ht, by simp [update_event, hu]⟩

/-- An update callback that reports failure. -/
def always_failing_update : UpdateFn := fun _ _ => false

/-- An update callback that reports success. -/
def always_ok_update : UpdateFn := fun _ _ => true

/-- A slot table with two updatable slots: the job slot's callback fails,
the (later) texture slot's callback succeeds. -/
def sm_two_updates : SMState :=
  { systems := fun t =>
      if t = KSystemType.job then
        { init := none, shutdown := 0, update := some always_failing_update,
          state := 7, state_size := 0 }
      else if t = KSystemType.texture then
        { init := none, shutdown := 0, update := some always_ok_update,
          state := 9, state_size := 0 }
      else k_system_zero,
    cursor := 0 }

/-- C5 witness: in a pass where the job slot's update fails, the texture
slot (iterated after job) is still invoked and both invocations are in the
trace. -/
theorem C5_update_pass_invokes_all_witness :
    (KSystemType.job, 7, false) ∈
      (systems_manager_update sm_two_updates 3).2 ∧
    (KSystemType.texture, 9, true) ∈
      (systems_manager_update sm_two_updates 3).2 :=
  ⟨(C5_update_pass_invokes_all sm_two_updates 3).2 KSystemType.job
      always_failing_update rfl,
   (C5_update_pass_invokes_all sm_two_updates 3).2 KSystemType.texture
      always_ok_update rfl⟩

/-- If a chain of boot steps fails on a prefix, appending further steps
changes nothing: the failing run, its final state and its attempted-step
trace are identical — no later step is attempted. -/
theorem chain_stops_after_failure
    (step : SMState → BootStep → Bool × SMState) (s : SMState)
    (l1 l2 : List BootStep) (h : (spec_run_chain step s l1).1 = false) :
    spec_run_chain step s (l1 ++ l2) = spec_run_chain step s l1 := by
  induction l1 generalizing s with
  | nil => simp [spec_run_chain] at h
  | cons hd tl ih =>
    simp only [List.cons_append, spec_run_chain] at h ⊢
    by_cases hs : (step s hd).1
    · simp only [hs, if_true] at h ⊢
      rw [show tl.append l2 = tl ++ l2 from rfl, ih _ h]
    · simp [hs]

/-- A chain of boot steps that reports success attempted every step, in
the given order. -/
theorem chain_success_attempts_all
    (step : SMState → BootStep → Bool × SMState) (s : SMState)
    (l : List BootStep) (h : (spec_run_chain step s l).1 = true) :
    (spec_run_chain step s l).2.2 = l := by
  induction l generalizing s with
  | nil => rfl
  | cons hd tl ih =>
    simp only [spec_run_chain] at h ⊢
    by_cases hs : (step s hd).1
    · simp only [hs, if_true] at h ⊢
      rw [ih _ h]
    · simp [hs] at h

/-- A run over the per-view creation steps: when every configured view
creates successfully the run continues into the remaining steps with the
view steps prepended to the trace; when the view loop fails the whole run
fails with the manager state untouched. -/
theorem chain_views_segment (ext : ExternalSystems) (processor_count : Int)
    (views : List Nat) (st : SMState) (rest : List BootStep) :
    (create_views_loop ext views = true →
      spec_run_chain (boot_step ext processor_count) st
          (views.map BootStep.create_view ++ rest) =
        ((spec_run_chain (boot_step ext processor_count) st rest).1,
         (spec_run_chain (boot_step ext processor_count) st rest).2.1,
         views.map BootStep.create_view ++
           (spec_run_chain (boot_step ext processor_count) st rest).2.2)) ∧
    (create_views_loop ext views = false →
      (spec_run_chain (boot_step ext processor_count) st
          (views.map BootStep.create_view ++ rest)).1 = false ∧
      (spec_run_chain (boot_step ext processor_count) st
          (views.map BootStep.create_view ++ rest)).2.1 = st) := by
  induction views with
  | nil =>
    constructor
    · intro _
      simp
    · intro h
      simp [create_views_loop] at h
  | cons v vs ih =>
    constructor
    · intro h
      unfold create_views_loop at h
      by_cases hv : ext.render_view_create v
      · simp only [hv, Bool.not_true, Bool.false_eq_true, if_false] at h
        simp only [List.map_cons, List.cons_append, spec_run_chain,
          boot_step, hv, if_true]
        rw [show (List.map BootStep.create_view vs).append rest =
          List.map BootStep.create_view vs ++ rest from rfl, ih.1 h]
      · simp [hv] at h
    · intro h
      unfold create_views_loop at h
      by_cases hv : ext.render_view_create v
      · simp only [hv, Bool.not_true, Bool.false_eq_true, if_false] at h
        simp only [List.map_cons, List.cons_append, spec_run_chain,
          boot_step, hv, if_true]
        rw [show (List.map BootStep.create_view vs).append rest =
          List.map BootStep.create_view vs ++ rest from rfl]
        exact ih.2 h
      · simp only [List.map_cons, List.cons_append, spec_run_chain,
          boot_step]
        simp [hv]

/-- One step of a chain, projected to the C-visible result (the `b8` and
the manager state). -/
theorem chain_cons_proj (step : SMState → BootStep → Bool × SMState)
    (st : SMState) (s : BootStep) (rest : List BootStep) :
    ((spec_run_chain step st (s :: rest)).1,
     (spec_run_chain step st (s :: rest)).2.1) =
      if (step st s).1 then
        ((spec_run_chain step (step st s).2 rest).1,
         (spec_run_chain step (step st s).2 rest).2.1)
      else (false, (step st s).2) := by
  by_cases h : (step st s).1 <;> simp [spec_run_chain, h]

/-- The job tail of the pre-boot pass equals the chain over its step. -/
theorem pre_chain_from_job (ext : ExternalSystems) (processor_count : Int)
    (st : SMState) :
    pre_boot_from_job ext st =
      ((spec_run_chain (boot_step ext processor_count) st
          [BootStep.reg KSystemType.job]).1,
       (spec_run_chain (boot_step ext processor_count) st
          [BootStep.reg KSystemType.job]).2.1) := by
  rw [chain_cons_proj]
  unfold pre_boot_from_job
  simp only [boot_step, reduceCtorEq, reduceIte, if_false, if_true]
  by_cases h : (systems_manager_register st KSystemType.job
      (some (ext.init_of KSystemType.job)) (ext.shutdown_of KSystemType.job)
      (some ext.job_update) (ext.config_of KSystemType.job)
      ext.junk_state ext.junk_size).1
  · simp [h, spec_run_chain]
  · simp [h]

/-- The thread-derivation tail of the pre-boot pass equals the chain over
its declared step suffix. -/
theorem pre_chain_from_threads (ext : ExternalSystems)
    (processor_count : Int) (st : SMState) :
    pre_boot_from_threads ext processor_count st =
      ((spec_run_chain (boot_step ext processor_count) st
          [BootStep.derive_threads, BootStep.reg KSystemType.job]).1,
       (spec_run_chain (boot_step ext processor_count) st
          [BootStep.derive_threads, BootStep.reg KSystemType.job]).2.1) := by
  rw [chain_cons_proj]
  unfold pre_boot_from_threads
  simp only [boot_step]
  cases hd : derived_thread_count processor_count
  · simp [hd]
  · simp only [hd, Option.isNone_some, Bool.false_eq_true, if_false,
      Option.isSome_some, if_true]
    exact pre_chain_from_job ext processor_count st

/-- The renderer tail of the pre-boot pass equals the chain over its
declared step suffix. -/
theorem pre_chain_from_renderer (ext : ExternalSystems)
    (processor_count : Int) (st : SMState) :
    pre_boot_from_renderer ext processor_count st =
      ((spec_run_chain (boot_step ext processor_count) st
          [BootStep.reg KSystemType.renderer,
          BootStep.derive_threads,
          BootStep.reg KSystemType.job]).1,
       (spec_run_chain (boot_step ext processor_count) st
          [BootStep.reg KSystemType.renderer,
          BootStep.derive_threads,
          BootStep.reg KSystemType.job]).2.1) := by
  rw [chain_cons_proj]
  unfold pre_boot_from_renderer
  simp only [boot_step, reduceCtorEq, reduceIte, if_false, if_true]
  by_cases h : (systems_manager_register st KSystemType.renderer
      (some (ext.init_of KSystemType.renderer)) (ext.shutdown_of KSystemType.renderer)
      none (ext.config_of KSystemType.renderer) ext.junk_state
      ext.junk_size).1
  · simp only [h, if_true, Bool.not_true, Bool.false_eq_true, if_false]
    exact pre_chain_from_threads ext processor_count _
  · simp [h]

/-- The shader tail of the pre-boot pass equals the chain over its
declared step suffix. -/
theorem pre_chain_from_shader (ext : ExternalSystems)
    (processor_count : Int) (st : SMState) :
    pre_boot_from_shader ext processor_count st =
      ((spec_run_chain (boot_step ext processor_count) st
          [BootStep.reg KSystemType.shader,
          BootStep.reg KSystemType.renderer,
          BootStep.derive_threads,
          BootStep.reg KSystemType.job]).1,
       (spec_run_chain (boot_step ext processor_count) st
          [BootStep.reg KSystemType.shader,
          BootStep.reg KSystemType.renderer,
          BootStep.derive_threads,
          BootStep.reg KSystemType.job]).2.1) := by
  rw [chain_cons_proj]
  unfold pre_boot_from_shader
  simp only [boot_step, reduceCtorEq, reduceIte, if_false, if_true]
  by_cases h : (systems_manager_register st KSystemType.shader
      (some (ext.init_of KSystemType.shader)) (ext.shutdown_of KSystemType.shader)
      none (ext.config_of KSystemType.shader) ext.junk_state
      ext.junk_size).1
  · simp only [h, if_true, Bool.not_true, Bool.false_eq_true, if_false]
    exact pre_chain_from_renderer ext processor_count _
  · simp [h]

/-- The resource tail of the pre-boot pass equals the chain over its
declared step suffix. -/
theorem pre_chain_from_resource (ext : ExternalSystems)
    (processor_count : Int) (st : SMState) :
    pre_boot_from_resource ext processor_count st =
      ((spec_run_chain (boot_step ext processor_count) st
          [BootStep.reg KSystemType.resource,
          BootStep.reg KSystemType.shader,
          BootStep.reg KSystemType.renderer,
          BootStep.derive_threads,
          BootStep.reg KSystemType.job]).1,
       (spec_run_chain (boot_step ext processor_count) st
          [BootStep.reg KSystemType.resource,
          BootStep.reg KSystemType.shader,
          BootStep.reg KSystemType.renderer,
          BootStep.derive_threads,
          BootStep.reg KSystemType.job]).2.1) := by
  rw [chain_cons_proj]
  unfold pre_boot_from_resource
  simp only [boot_step, reduceCtorEq, reduceIte, if_false, if_true]
  by_cases h : (systems_manager_register st KSystemType.resource
      (some (ext.init_of KSystemType.resource)) (ext.shutdown_of KSystemType.resource)
      none (ext.config_of KSystemType.resource) ext.junk_state
      ext.junk_size).1
  · simp only [h, if_true, Bool.not_true, Bool.false_eq_true, if_false]
    exact pre_chain_from_shader ext processor_count _
  · simp [h]

/-- The platform tail of the pre-boot pass equals the chain over its
declared step suffix. -/
theorem pre_chain_from_platform (ext : ExternalSystems)
    (processor_count : Int) (st : SMState) :
    pre_boot_from_platform ext processor_count st =
      ((spec_run_chain (boot_step ext processor_count) st
          [BootStep.reg KSystemType.platform,
          BootStep.reg KSystemType.resource,
          BootStep.reg KSystemType.shader,
          BootStep.reg KSystemType.renderer,
          BootStep.derive_threads,
          BootStep.reg KSystemType.job]).1,
       (spec_run_chain (boot_step ext processor_count) st
          [BootStep.reg KSystemType.platform,
          BootStep.reg KSystemType.resource,
          BootStep.reg KSystemType.shader,
          BootStep.reg KSystemType.renderer,
          BootStep.derive_threads,
          BootStep.reg KSystemType.job]).2.1) := by
  rw [chain_cons_proj]
  unfold pre_boot_from_platform
  simp only [boot_step, reduceCtorEq, reduceIte, if_false, if_true]
  by_cases h : (systems_manager_register st KSystemType.platform
      (some (ext.init_of KSystemType.platform)) (ext.shutdown_of KSystemType.platform)
      none (ext.config_of KSystemType.platform) ext.junk_state
      ext.junk_size).1
  · simp only [h, if_true, Bool.not_true, Bool.false_eq_true, if_false]
    exact pre_chain_from_resource ext processor_count _
  · simp [h]

/-- The input tail of the pre-boot pass equals the chain over its
declared step suffix. -/
theorem pre_chain_from_input (ext : ExternalSystems)
    (processor_count : Int) (st : SMState) :
    pre_boot_from_input ext processor_count st =
      ((spec_run_chain (boot_step ext processor_count) st
          [BootStep.reg KSystemType.input,
          BootStep.reg KSystemType.platform,
          BootStep.reg KSystemType.resource,
          BootStep.reg KSystemType.shader,
          BootStep.reg KSystemType.renderer,
          BootStep.derive_threads,
          BootStep.reg KSystemType.job]).1,
       (spec_run_chain (boot_step ext processor_count) st
          [BootStep.reg KSystemType.input,
          BootStep.reg KSystemType.platform,
          BootStep.reg KSystemType.resource,
          BootStep.reg KSystemType.shader,
          BootStep.reg KSystemType.renderer,
          BootStep.derive_threads,
          BootStep.reg KSystemType.job]).2.1) := by
  rw [chain_cons_proj]
  unfold pre_boot_from_input
  simp only [boot_step, reduceCtorEq, reduceIte, if_false, if_true]
  by_cases h : (systems_manager_register st KSystemType.input
      (some (ext.init_of KSystemType.input)) (ext.shutdown_of KSystemType.input)
      none (ext.config_of KSystemType.input) ext.junk_state
      ext.junk_size).1
  · simp only [h, if_true, Bool.not_true, Bool.false_eq_true, if_false]
    exact pre_chain_from_platform ext processor_count _
  · simp [h]

/-- The logging tail of the pre-boot pass equals the chain over its
declared step suffix. -/
theorem pre_chain_from_logging (ext : ExternalSystems)
    (processor_count : Int) (st : SMState) :
    pre_boot_from_logging ext processor_count st =
      ((spec_run_chain (boot_step ext processor_count) st
          [BootStep.reg KSystemType.logging,
          BootStep.reg KSystemType.input,
          BootStep.reg KSystemType.platform,
          BootStep.reg KSystemType.resource,
          BootStep.reg KSystemType.shader,
          BootStep.reg KSystemType.renderer,
          BootStep.derive_threads,
          BootStep.reg KSystemType.job]).1,
       (spec_run_chain (boot_step ext processor_count) st
          [BootStep.reg KSystemType.logging,
          BootStep.reg KSystemType.input,
          BootStep.reg KSystemType.platform,
          BootStep.reg KSystemType.resource,
          BootStep.reg KSystemType.shader,
          BootStep.reg KSystemType.renderer,
          BootStep.derive_threads,
          BootStep.reg KSystemType.job]).2.1) := by
  rw [chain_cons_proj]
  unfold pre_boot_from_logging
  simp only [boot_step, reduceCtorEq, reduceIte, if_false, if_true]
  by_cases h : (systems_manager_register st KSystemType.logging
      (some (ext.init_of KSystemType.logging)) (ext.shutdown_of KSystemType.logging)
      none (ext.config_of KSystemType.logging) ext.junk_state
      ext.junk_size).1
  · simp only [h, if_true, Bool.not_true, Bool.false_eq_true, if_false]
    exact pre_chain_from_input ext processor_count _
  · simp [h]

/-- The event tail of the pre-boot pass equals the chain over its
declared step suffix. -/
theorem pre_chain_from_event (ext : ExternalSystems)
    (processor_count : Int) (st : SMState) :
    pre_boot_from_event ext processor_count st =
      ((spec_run_chain (boot_step ext processor_count) st
          [BootStep.reg KSystemType.event,
          BootStep.reg KSystemType.logging,
          BootStep.reg KSystemType.input,
          BootStep.reg KSystemType.platform,
          BootStep.reg KSystemType.resource,
          BootStep.reg KSystemType.shader,
          BootStep.reg KSystemType.renderer,
          BootStep.derive_threads,
          BootStep.reg KSystemType.job]).1,
       (spec_run_chain (boot_step ext processor_count) st
          [BootStep.reg KSystemType.event,
          BootStep.reg KSystemType.logging,
          BootStep.reg KSystemType.input,
          BootStep.reg KSystemType.platform,
          BootStep.reg KSystemType.resource,
          BootStep.reg KSystemType.shader,
          BootStep.reg KSystemType.renderer,
          BootStep.derive_threads,
          BootStep.reg KSystemType.job]).2.1) := by
  rw [chain_cons_proj]
  unfold pre_boot_from_event
  simp only [boot_step, reduceCtorEq, reduceIte, if_false, if_true]
  by_cases h : (systems_manager_register st KSystemType.event
      (some (ext.init_of KSystemType.event)) (ext.shutdown_of KSystemType.event)
      none (ext.config_of KSystemType.event) ext.junk_state
      ext.junk_size).1
  · simp only [h, if_true, Bool.not_true, Bool.false_eq_true, if_false]
    exact pre_chain_from_logging ext processor_count _
  · simp [h]

/-- The KVar tail of the pre-boot pass equals the chain over its declared
step suffix. -/
theorem pre_chain_from_kvar (ext : ExternalSystems)
    (processor_count : Int) (st : SMState) :
    pre_boot_from_kvar ext processor_count st =
      ((spec_run_chain (boot_step ext processor_count) st
          [BootStep.reg KSystemType.kvar,
          BootStep.reg KSystemType.event,
          BootStep.reg KSystemType.logging,
          BootStep.reg KSystemType.input,
          BootStep.reg KSystemType.platform,
          BootStep.reg KSystemType.resource,
          BootStep.reg KSystemType.shader,
          BootStep.reg KSystemType.renderer,
          BootStep.derive_threads,
          BootStep.reg KSystemType.job]).1,
       (spec_run_chain (boot_step ext processor_count) st
          [BootStep.reg KSystemType.kvar,
          BootStep.reg KSystemType.event,
          BootStep.reg KSystemType.logging,
          BootStep.reg KSystemType.input,
          BootStep.reg KSystemType.platform,
          BootStep.reg KSystemType.resource,
          BootStep.reg KSystemType.shader,
          BootStep.reg KSystemType.renderer,
          BootStep.derive_threads,
          BootStep.reg KSystemType.job]).2.1) := by
  rw [chain_cons_proj]
  unfold pre_boot_from_kvar
  simp only [boot_step, reduceCtorEq, reduceIte, if_false, if_true]
  by_cases h : (systems_manager_register st KSystemType.kvar
      (some (ext.init_of KSystemType.kvar)) (ext.shutdown_of KSystemType.kvar)
      none (ext.config_of KSystemType.kvar) ext.junk_state
      ext.junk_size).1
  · simp only [h, if_true, Bool.not_true, Bool.false_eq_true, if_false]
    exact pre_chain_from_event ext processor_count _
  · simp [h]

/-- The console tail of the pre-boot pass equals the chain over its
declared step suffix. -/
theorem pre_chain_from_console (ext : ExternalSystems)
    (processor_count : Int) (st : SMState) :
    pre_boot_from_console ext processor_count st =
      ((spec_run_chain (boot_step ext processor_count) st
          [BootStep.reg KSystemType.console,
          BootStep.reg KSystemType.kvar,
          BootStep.reg KSystemType.event,
          BootStep.reg KSystemType.logging,
          BootStep.reg KSystemType.input,
          BootStep.reg KSystemType.platform,
          BootStep.reg KSystemType.resource,
          BootStep.reg KSystemType.shader,
          BootStep.reg KSystemType.renderer,
          BootStep.derive_threads,
          BootStep.reg KSystemType.job]).1,
       (spec_run_chain (boot_step ext processor_count) st
          [BootStep.reg KSystemType.console,
          BootStep.reg KSystemType.kvar,
          BootStep.reg KSystemType.event,
          BootStep.reg KSystemType.logging,
          BootStep.reg KSystemType.input,
          BootStep.reg KSystemType.platform,
          BootStep.reg KSystemType.resource,
          BootStep.reg KSystemType.shader,
          BootStep.reg KSystemType.renderer,
          BootStep.derive_threads,
          BootStep.reg KSystemType.job]).2.1) := by
  rw [chain_cons_proj]
  unfold pre_boot_from_console
  simp only [boot_step, reduceCtorEq, reduceIte, if_false, if_true]
  by_cases h : (systems_manager_register st KSystemType.console
      (some (ext.init_of KSystemType.console)) (ext.shutdown_of KSystemType.console)
      none (ext.config_of KSystemType.console) ext.junk_state
      ext.junk_size).1
  · simp only [h, if_true, Bool.not_true, Bool.false_eq_true, if_false]
    exact pre_chain_from_kvar ext processor_count _
  · simp [h]

/-- The geometry tail of the post-boot pass equals the chain over its
step. -/
theorem post_chain_from_geometry (ext : ExternalSystems)
    (processor_count : Int) (st : SMState) :
    post_boot_from_geometry ext st =
      ((spec_run_chain (boot_step ext processor_count) st
          [BootStep.reg KSystemType.geometry]).1,
       (spec_run_chain (boot_step ext processor_count) st
          [BootStep.reg KSystemType.geometry]).2.1) := by
  rw [chain_cons_proj]
  unfold post_boot_from_geometry
  simp only [boot_step, reduceCtorEq, reduceIte, if_false, if_true]
  by_cases h : (systems_manager_register st KSystemType.geometry
      (some (ext.init_of KSystemType.geometry))
      (ext.shutdown_of KSystemType.geometry) none
      (ext.config_of KSystemType.geometry) ext.junk_state
      ext.junk_size).1
  · simp [h, spec_run_chain]
  · simp [h]

/-- The material tail of the post-boot pass equals the chain over its
declared step suffix. -/
theorem post_chain_from_material (ext : ExternalSystems)
    (processor_count : Int) (st : SMState) :
    post_boot_from_material ext st =
      ((spec_run_chain (boot_step ext processor_count) st
          [BootStep.reg KSystemType.material,
           BootStep.reg KSystemType.geometry]).1,
       (spec_run_chain (boot_step ext processor_count) st
          [BootStep.reg KSystemType.material,
           BootStep.reg KSystemType.geometry]).2.1) := by
  rw [chain_cons_proj]
  unfold post_boot_from_material
  simp only [boot_step, reduceCtorEq, reduceIte, if_false, if_true]
  by_cases h : (systems_manager_register st KSystemType.material
      (some (ext.init_of KSystemType.material))
      (ext.shutdown_of KSystemType.material) none
      (ext.config_of KSystemType.material) ext.junk_state
      ext.junk_size).1
  · simp only [h, if_true, Bool.not_true, Bool.false_eq_true, if_false]
    exact post_chain_from_geometry ext processor_count _
  · simp [h]

/-- The view-creation tail of the post-boot pass equals the chain over
the per-view steps followed by material and geometry. -/
theorem post_chain_from_views (ext : ExternalSystems)
    (processor_count : Int) (app_config : AppConfig) (st : SMState) :
    post_boot_from_views ext app_config st =
      ((spec_run_chain (boot_step ext processor_count) st
          (app_config.render_views.map BootStep.create_view ++
            [BootStep.reg KSystemType.material,
             BootStep.reg KSystemType.geometry])).1,
       (spec_run_chain (boot_step ext processor_count) st
          (app_config.render_views.map BootStep.create_view ++
            [BootStep.reg KSystemType.material,
             BootStep.reg KSystemType.geometry])).2.1) := by
  unfold post_boot_from_views
  by_cases hv : create_views_loop ext app_config.render_views = true
  · rw [(chain_views_segment ext processor_count app_config.render_views st
      [BootStep.reg KSystemType.material,
       BootStep.reg KSystemType.geometry]).1 hv]
    simp only [hv, Bool.not_true, Bool.false_eq_true, if_false]
    exact post_chain_from_material ext processor_count st
  · rw [Bool.not_eq_true] at hv
    have hc := (chain_views_segment ext processor_count
      app_config.render_views st
      [BootStep.reg KSystemType.material,
       BootStep.reg KSystemType.geometry]).2 hv
    rw [hc.1, hc.2, hv]
    simp

/-- The render-view tail of the post-boot pass equals the chain over its
declared step suffix. -/
theorem post_chain_from_render_view (ext : ExternalSystems)
    (processor_count : Int) (app_config : AppConfig) (st : SMState) :
    post_boot_from_render_view ext app_config st =
      ((spec_run_chain (boot_step ext processor_count) st
          (BootStep.reg KSystemType.render_view ::
          (app_config.render_views.map BootStep.create_view ++
            [BootStep.reg KSystemType.material,
             BootStep.reg KSystemType.geometry]))).1,
       (spec_run_chain (boot_step ext processor_count) st
          (BootStep.reg KSystemType.render_view ::
          (app_config.render_views.map BootStep.create_view ++
            [BootStep.reg KSystemType.material,
             BootStep.reg KSystemType.geometry]))).2.1) := by
  rw [chain_cons_proj]
  unfold post_boot_from_render_view
  simp only [boot_step, reduceCtorEq, reduceIte, if_false, if_true]
  by_cases h : (systems_manager_register st KSystemType.render_view
      (some (ext.init_of KSystemType.render_view)) (ext.shutdown_of KSystemType.render_view)
      none (ext.config_of KSystemType.render_view) ext.junk_state
      ext.junk_size).1
  · simp only [h, if_true, Bool.not_true, Bool.false_eq_true, if_false]
    exact post_chain_from_views ext processor_count app_config _
  · simp [h]

/-- The camera tail of the post-boot pass equals the chain over its
declared step suffix. -/
theorem post_chain_from_camera (ext : ExternalSystems)
    (processor_count : Int) (app_config : AppConfig) (st : SMState) :
    post_boot_from_camera ext app_config st =
      ((spec_run_chain (boot_step ext processor_count) st
          (BootStep.reg KSystemType.camera :: BootStep.reg KSystemType.render_view ::
          (app_config.render_views.map BootStep.create_view ++
            [BootStep.reg KSystemType.material,
             BootStep.reg KSystemType.geometry]))).1,
       (spec_run_chain (boot_step ext processor_count) st
          (BootStep.reg KSystemType.camera :: BootStep.reg KSystemType.render_view ::
          (app_config.render_views.map BootStep.create_view ++
            [BootStep.reg KSystemType.material,
             BootStep.reg KSystemType.geometry]))).2.1) := by
  rw [chain_cons_proj]
  unfold post_boot_from_camera
  simp only [boot_step, reduceCtorEq, reduceIte, if_false, if_true]
  by_cases h : (systems_manager_register st KSystemType.camera
      (some (ext.init_of KSystemType.camera)) (ext.shutdown_of KSystemType.camera)
      none (ext.config_of KSystemType.camera) ext.junk_state
      ext.junk_size).1
  · simp only [h, if_true, Bool.not_true, Bool.false_eq_true, if_false]
    exact post_chain_from_render_view ext processor_count app_config _
  · simp [h]

/-- The font tail of the post-boot pass equals the chain over its
declared step suffix. -/
theorem post_chain_from_font (ext : ExternalSystems)
    (processor_count : Int) (app_config : AppConfig) (st : SMState) :
    post_boot_from_font ext app_config st =
      ((spec_run_chain (boot_step ext processor_count) st
          (BootStep.reg KSystemType.font :: BootStep.reg KSystemType.camera :: BootStep.reg KSystemType.render_view ::
          (app_config.render_views.map BootStep.create_view ++
            [BootStep.reg KSystemType.material,
             BootStep.reg KSystemType.geometry]))).1,
       (spec_run_chain (boot_step ext processor_count) st
          (BootStep.reg KSystemType.font :: BootStep.reg KSystemType.camera :: BootStep.reg KSystemType.render_view ::
          (app_config.render_views.map BootStep.create_view ++
            [BootStep.reg KSystemType.material,
             BootStep.reg KSystemType.geometry]))).2.1) := by
  rw [chain_cons_proj]
  unfold post_boot_from_font
  simp only [boot_step, reduceCtorEq, reduceIte, if_false, if_true]
  by_cases h : (systems_manager_register st KSystemType.font
      (some (ext.init_of KSystemType.font)) (ext.shutdown_of KSystemType.font)
      none (ext.config_of KSystemType.font) ext.junk_state
      ext.junk_size).1
  · simp only [h, if_true, Bool.not_true, Bool.false_eq_true, if_false]
    exact post_chain_from_camera ext processor_count app_config _
  · simp [h]

/-- C7: both boot passes are exactly the run of the declared ordered step
list — pre-boot: memory, console, kvar (configuration variables), event,
logging, input, platform, resource, shader, renderer, the thread-count
derivation, job; post-boot: texture, font, camera, render-view, one
creation call per configured render view, material, geometry — and a chain
run aborts at its first failing step: a failed prefix makes every appended
later step unattempted, while a successful run attempted every step in the
declared order. -/
theorem C7_boot_passes_in_declared_order (ext : ExternalSystems)
    (processor_count : Int) (app_config : AppConfig) (st st2 : SMState) :
    (register_known_systems_pre_boot ext processor_count st =
      ((spec_run_chain (boot_step ext processor_count) st pre_boot_order).1,
       (spec_run_chain (boot_step ext processor_count) st
          pre_boot_order).2.1)) ∧
    (register_known_systems_post_boot ext app_config st2 =
      ((spec_run_chain (boot_step ext processor_count) st2
          (post_boot_order app_config.render_views)).1,
       (spec_run_chain (boot_step ext processor_count) st2
          (post_boot_order app_config.render_views)).2.1)) ∧
    (∀ (step : SMState → BootStep → Bool × SMState) (s : SMState)
        (l1 l2 : List BootStep),
      (spec_run_chain step s l1).1 = false →
      spec_run_chain step s (l1 ++ l2) = spec_run_chain step s l1) ∧
    (∀ (step : SMState → BootStep → Bool × SMState) (s : SMState)
        (l : List BootStep),
      (spec_run_chain step s l).1 = true →
      (spec_run_chain step s l).2.2 = l) := by
  refine ⟨?_, ?_, chain_stops_after_failure, chain_success_attempts_all⟩
  · simp only [pre_boot_order]
    rw [chain_cons_proj]
    unfold register_known_systems_pre_boot
    simp only [boot_step, reduceCtorEq, reduceIte, if_false, if_true]
    by_cases h : (systems_manager_register st KSystemType.memory none
        (ext.shutdown_of KSystemType.memory) none
        (ext.config_of KSystemType.memory) ext.junk_state ext.junk_size).1
    · simp only [h, if_true, Bool.not_true, Bool.false_eq_true, if_false]
      exact pre_chain_from_console ext processor_count _
    · simp [h]
  · simp only [post_boot_order, List.cons_append, List.nil_append,
      List.append_assoc]
    rw [chain_cons_proj]
    unfold register_known_systems_post_boot
    simp only [boot_step, reduceCtorEq, reduceIte, if_false, if_true]
    by_cases h : (systems_manager_register st2 KSystemType.texture
        (some (ext.init_of KSystemType.texture))
        (ext.shutdown_of KSystemType.texture) none
        (ext.config_of KSystemType.texture) ext.junk_state
        ext.junk_size).1
    · simp only [h, if_true, Bool.not_true, Bool.false_eq_true, if_false]
      exact post_chain_from_font ext processor_count app_config _
    · simp [h]

/-- A concrete external-system environment in which every call
succeeds. -/
def ext0 : ExternalSystems :=
  { init_of := fun _ => sample_init, shutdown_of := fun _ => 0,
    job_update := always_ok_update, render_view_create := fun _ => true,
    config_of := fun _ => 0, junk_state := 0, junk_size := 0 }

/-- C7 witness: the chain properties applied at concrete inputs — an
always-failing step list stops where it failed even when extended, and an
all-succeeding run attempts the full pre-boot order. -/
theorem C7_boot_passes_in_declared_order_witness :
    spec_run_chain (fun s _ => (false, s)) sm_zero
        ([BootStep.derive_threads] ++ [BootStep.reg KSystemType.memory]) =
      spec_run_chain (fun s _ => (false, s)) sm_zero
        [BootStep.derive_threads] ∧
    (spec_run_chain (fun s _ => (true, s)) sm_zero pre_boot_order).2.2 =
      pre_boot_order :=
  ⟨(C7_boot_passes_in_declared_order ext0 0 ⟨[]⟩ sm_zero sm_zero).2.2.1
      (fun s _ => (false, s)) sm_zero [BootStep.derive_threads]
      [BootStep.reg KSystemType.memory] rfl,
   (C7_boot_passes_in_declared_order ext0 0 ⟨[]⟩ sm_zero sm_zero).2.2.2
      (fun s _ => (true, s)) sm_zero pre_boot_order rfl⟩
